import Mathlib

/-
Shallow embedding of the cn-infra Consul key-value plugin slice:
  db/keyval/consul/plugin.go  (plugin lifecycle, health probe, resync)
  db/keyval/put_options.go    (the TTL put option)

Go pointers that may be nil are modelled as `Option`; a Go `error` value is
modelled by the opaque type `Err` (`none` = nil error).  External
collaborators (config loader, consul client constructor, status-check
registry) are modelled by an environment record whose fields carry the
results those collaborators return to the plugin for one invocation.
-/

/-- Errors are opaque values; only nil-ness and identity matter to the plugin. -/
abbrev Err := String

/-- Consul plugin configuration (struct `Config` in plugin.go). -/
structure Config where
  Address : String
  ReconnectResync : Bool
deriving Repr, DecidableEq

namespace api

/-- The slice of the external consul `api.Config` the plugin touches. -/
structure Config where
  Address : String
deriving Repr, DecidableEq

/-- Default client configuration of the external consul api package
(an external collaborator; only its address field is relevant here). -/
def DefaultConfig : Config := { Address := "127.0.0.1:8500" }

end api

namespace statuscheck

/-- Health states a probe reports to the status-check aggregator. -/
inductive PluginState
  | OK
  | Error
deriving Repr, DecidableEq

end statuscheck

/-- The mutable fields of struct `Plugin` in plugin.go, together with the
nil-ness of the injected dependencies (`Deps.StatusCheck`, `Deps.Resync`).
Pointer-valued fields (`client`, `protoWrapper`) are modelled by their
nil-ness; the notification channel by an optional channel identity. -/
structure Plugin where
  statusCheckPresent : Bool
  resyncPresent : Bool
  disabled : Bool := false
  connected : Bool := false
  hasClient : Bool := false
  hasProtoWrapper : Bool := false
  reconnectResync : Bool := false
  lastConnErr : Option Err := none
  initNotifChan : Option Nat := none
deriving Repr, DecidableEq

/-- A plugin as the Go runtime zero-initializes it, with the two injected
dependencies fixed. -/
def Plugin.initial (statusCheckPresent resyncPresent : Bool) : Plugin :=
  { statusCheckPresent, resyncPresent }

/-- Method `Disabled` of plugin.go. -/
def Plugin.Disabled (plugin : Plugin) : Bool :=
  plugin.disabled

/-- Method `Connected` of plugin.go. -/
def Plugin.Connected (plugin : Plugin) : Bool :=
  plugin.connected

/-- Result of one call to the external `PluginConfig.GetValue` collaborator:
the found flag, the returned error, and the configuration it decoded. -/
structure GetValueResult where
  found : Bool
  err : Option Err
  cfg : Config
deriving Repr, DecidableEq

/-- Method `getConfig` of plugin.go: returns the updated plugin, the
configuration pointer and the error. -/
def Plugin.getConfig (gv : GetValueResult) (plugin : Plugin) :
    Plugin × Option Config × Option Err :=
  match gv.err with
  | some e => (plugin, none, some e)
  | none =>
    if !gv.found then
      ({ plugin with disabled := true }, none, none)
    else
      (plugin, some gv.cfg, none)

/-- Function `ConfigToClient` of plugin.go: starts from the consul api
default configuration and overrides the address when one is configured.
The Go function never returns a non-nil error. -/
def ConfigToClient (cfg : Config) : api.Config × Option Err :=
  let clientCfg := api.DefaultConfig
  let clientCfg := if cfg.Address ≠ "" then { clientCfg with Address := cfg.Address } else clientCfg
  (clientCfg, none)

/-- Everything the environment decides during one `Init` call: the result of
the config lookup, the error (if any) of `NewClient`, and the identity of
the freshly allocated notification channel. -/
structure InitEnv where
  getValue : GetValueResult
  newClientErr : Option Err
  freshChan : Nat
deriving Repr, DecidableEq

/-- Observable outcome of `Init`: the plugin state, the returned error,
whether a health probe was registered with the status-check aggregator, and
whether the Go code would have dereferenced a nil pointer. -/
structure InitResult where
  plugin : Plugin
  ret : Option Err
  probeRegistered : Bool
  panicked : Bool
deriving Repr, DecidableEq

/-- Method `Init` of plugin.go, line for line: allocate the notification
channel, load the config (bailing out on error or when disabled), build the
client config, create the client (bailing out on error), then record the
resync flag, build the proto wrapper, mark the plugin connected, and
register the health probe when a status-check dependency is present. -/
def Plugin.Init (env : InitEnv) (plugin0 : Plugin) : InitResult :=
  let plugin := { plugin0 with initNotifChan := some env.freshChan }
  let (plugin, cfgOpt, err) := plugin.getConfig env.getValue
  if err.isSome || plugin.disabled then
    { plugin := plugin, ret := err, probeRegistered := false, panicked := false }
  else
    match cfgOpt with
    | none =>
      -- getConfig only returns a nil config together with an error or with
      -- the disabled flag set, so this arm is unreachable; Go would
      -- dereference a nil *Config inside ConfigToClient here.
      { plugin := plugin, ret := none, probeRegistered := false, panicked := true }
    | some cfg =>
      let (_clientCfg, ctcErr) := ConfigToClient cfg
      match ctcErr with
      | some e => { plugin := plugin, ret := some e, probeRegistered := false, panicked := false }
      | none =>
        match env.newClientErr with
        | some e => { plugin := plugin, ret := some e, probeRegistered := false, panicked := false }
        | none =>
          let plugin := { plugin with
            hasClient := true,
            reconnectResync := cfg.ReconnectResync,
            hasProtoWrapper := true,
            connected := true }
          { plugin := plugin, ret := none,
            probeRegistered := plugin.statusCheckPresent, panicked := false }

/-- Observable outcome of one health-probe invocation: the plugin state
afterwards, the state and error reported to the status-check aggregator,
how many times `Resync.DoResync` was invoked, and whether the
missing-Resync warning was logged. -/
structure ProbeOutcome where
  state : Plugin
  status : statuscheck.PluginState
  retErr : Option Err
  resyncCalls : Nat
  warnedMissingResync : Bool
deriving Repr, DecidableEq

/-- The status-check probe closure registered by `Init` (plugin.go).
`readErr` is the error returned by `client.GetValue(healthCheckProbeKey)`
for this invocation.  On success: when resync-after-reconnect is on and a
previous failure is recorded, call the resync trigger and clear the stored
error if the Resync dependency is present, otherwise only warn; then mark
the plugin connected and report OK.  On failure: record the error, mark the
plugin disconnected and report Error with the error. -/
def probe (readErr : Option Err) (plugin : Plugin) : ProbeOutcome :=
  match readErr with
  | none =>
    if plugin.reconnectResync && plugin.lastConnErr.isSome then
      if plugin.resyncPresent then
        { state := { plugin with lastConnErr := none, connected := true },
          status := .OK, retErr := none, resyncCalls := 1, warnedMissingResync := false }
      else
        { state := { plugin with connected := true },
          status := .OK, retErr := none, resyncCalls := 0, warnedMissingResync := true }
    else
      { state := { plugin with connected := true },
        status := .OK, retErr := none, resyncCalls := 0, warnedMissingResync := false }
  | some e =>
    { state := { plugin with lastConnErr := some e, connected := false },
      status := .Error, retErr := some e, resyncCalls := 0, warnedMissingResync := false }

/-- Observable outcome of `Plugin.DoResync`: how many times the resync
trigger fired and whether the call dereferenced a nil pointer. -/
structure DoResyncOutcome where
  resyncCalls : Nat
  panicked : Bool
deriving Repr, DecidableEq

/-- Method `DoResync` of plugin.go: `plugin.Resync.DoResync()` with no nil
check, so a nil Resync dependency is a nil-pointer dereference. -/
def Plugin.DoResync (plugin : Plugin) : DoResyncOutcome :=
  if plugin.resyncPresent then
    { resyncCalls := 1, panicked := false }
  else
    { resyncCalls := 0, panicked := true }

/-- Method `GetInitNotificationChan` of plugin.go. -/
def Plugin.GetInitNotificationChan (plugin : Plugin) : Option Nat :=
  plugin.initNotifChan

/-- The set of already-closed channels, identified by channel identity. -/
structure ChanState where
  closedIds : List Nat
deriving Repr, DecidableEq

namespace safeclose

/-- Modelled from the spec: `utils/safeclose.Close`, which plugin.go calls
but whose source is outside this slice.  Per the spec, shutdown releases
the notification channel and "must tolerate and report, but not escalate,
errors from closing already-closed resources" and be idempotent: a nil
channel and an already-closed channel are tolerated with a nil error. -/
def Close (ch : Option Nat) (cs : ChanState) : ChanState × Option Err :=
  match ch with
  | none => (cs, none)
  | some id =>
    if id ∈ cs.closedIds then (cs, none)
    else ({ closedIds := id :: cs.closedIds }, none)

end safeclose

/-- Method `Close` of plugin.go: `safeclose.Close(plugin.initNotifChan)`.
It mutates no plugin field; only the external channel state changes. -/
def Plugin.Close (plugin : Plugin) (cs : ChanState) : ChanState × Option Err :=
  safeclose.Close plugin.initNotifChan cs

/-- A prefixed proto broker handle (`protoWrapper.NewBroker`). -/
structure ProtoBroker where
  pfx : String
deriving Repr, DecidableEq

/-- A prefixed proto watcher handle (`protoWrapper.NewWatcher`). -/
structure ProtoWatcher where
  pfx : String
deriving Repr, DecidableEq

/-- Method `NewBroker` of plugin.go: delegates to the proto wrapper and
mutates no plugin field. -/
def Plugin.NewBroker (_plugin : Plugin) (pfx : String) : ProtoBroker :=
  { pfx }

/-- Method `NewWatcher` of plugin.go: delegates to the proto wrapper and
mutates no plugin field. -/
def Plugin.NewWatcher (_plugin : Plugin) (pfx : String) : ProtoWatcher :=
  { pfx }

/-- The operations available on a plugin after `Init` has completed. -/
inductive Op
  | probeOp (readErr : Option Err)
  | closeOp
  | doResyncOp
  | newBrokerOp (pfx : String)
  | newWatcherOp (pfx : String)
deriving Repr, DecidableEq

/-- Effect of one post-init operation on the plugin fields.  The probe
updates the state as `probe` does; `Close`, `DoResync`, `NewBroker` and
`NewWatcher` write no plugin field (their effects live in external state:
the channel set, the resync trigger, the returned handles). -/
def step (plugin : Plugin) (op : Op) : Plugin :=
  match op with
  | .probeOp readErr => (probe readErr plugin).state
  | .closeOp => plugin
  | .doResyncOp => plugin
  | .newBrokerOp _ => plugin
  | .newWatcherOp _ => plugin

/-- Modelled from the spec: the sending side of the post-init notification
channel lives outside this slice (the plugin comment names dbsync as the
consumer).  Per the spec it is "a one-shot notification mechanism ... a
single-fire signal, not a repeating event stream": once fired it never
delivers again. -/
structure InitNotifier where
  fired : Bool
deriving Repr, DecidableEq

/-- Modelled from the spec: one "a connection became available" event hits
the notifier; it delivers one notification the first time and nothing
afterwards.  Returns the notifier afterwards and the number of
notifications delivered by this event. -/
def notifyConnAvailable (n : InitNotifier) : InitNotifier × Nat :=
  if n.fired then (n, 0) else ({ fired := true }, 1)

/-- Total number of notifications delivered when `k` connection-available
events hit the notifier in sequence. -/
def deliveries : InitNotifier → Nat → Nat
  | _, 0 => 0
  | n, k + 1 =>
    let (n2, d) := notifyConnAvailable n
    d + deliveries n2 k

/-- Option `WithTTLOpt` of put_options.go; `time.Duration` is a signed
64-bit nanosecond count, modelled as `Int` (no arithmetic is performed). -/
structure WithTTLOpt where
  TTL : Int
deriving Repr, DecidableEq

/-- Function `WithTTL` of put_options.go: returns a pointer to a fresh
`WithTTLOpt` packaging the duration; the pointer is modelled as `Option`
so that non-nil-ness is expressible. -/
def WithTTL (TTL : Int) : Option WithTTLOpt :=
  some { TTL }

/-- The Init environment in which the config lookup reports not-found with
no error. -/
def envNoConfig (cfg : Config) (nce : Option Err) (fresh : Nat) : InitEnv :=
  { getValue := { found := false, err := none, cfg := cfg },
    newClientErr := nce,
    freshChan := fresh }

/-- The Init environment in which the config lookup succeeds and NewClient
fails with error e. -/
def envClientFails (cfg : Config) (e : Err) (fresh : Nat) : InitEnv :=
  { getValue := { found := true, err := none, cfg := cfg },
    newClientErr := some e,
    freshChan := fresh }

/-- A concrete error value used by witnesses. -/
def errBoom : Err := "connection refused"

/-- A concrete plugin in the degraded state with resync-after-reconnect on
and the Resync dependency present. -/
def pReconnect : Plugin :=
  { statusCheckPresent := true,
    resyncPresent := true,
    disabled := false,
    connected := false,
    hasClient := true,
    hasProtoWrapper := true,
    reconnectResync := true,
    lastConnErr := some errBoom,
    initNotifChan := some 0 }

/-- The same degraded plugin with the Resync dependency absent (nil). -/
def pNoResyncDep : Plugin :=
  { pReconnect with resyncPresent := false }

/-
Theorems settling the claims; helper lemmas precede the theorems using them.
-/

/-- C1 (amended): when the sentinel read succeeds, resync-after-reconnect
is enabled, a previous probe failure is recorded and the Resync dependency
is present, the probe triggers the resync exactly once, clears the stored
error, marks the plugin connected and reports OK to the health
aggregator. -/
theorem probe_reconnect_resyncs_once (p : Plugin)
    (hres : p.resyncPresent = true)
    (hcfg : p.reconnectResync = true)
    (herr : p.lastConnErr ≠ none) :
    (probe none p).resyncCalls = 1 ∧
    (probe none p).state.lastConnErr = none ∧
    (probe none p).state.connected = true ∧
    (probe none p).status = statuscheck.PluginState.OK ∧
    (probe none p).retErr = none := by
  have hs : p.lastConnErr.isSome = true := Option.isSome_iff_ne_none.mpr herr
  simp [probe, hres, hcfg, hs]

/-- Witness for C1 at a concrete degraded plugin. -/
theorem probe_reconnect_resyncs_once_witness :
    (probe none pReconnect).resyncCalls = 1 ∧
    (probe none pReconnect).state.lastConnErr = none ∧
    (probe none pReconnect).state.connected = true ∧
    (probe none pReconnect).status = statuscheck.PluginState.OK ∧
    (probe none pReconnect).retErr = none :=
  probe_reconnect_resyncs_once pReconnect rfl rfl (by simp [pReconnect])

/-- C2: when the sentinel read fails with error e, the probe records e in
lastConnErr, marks the plugin disconnected (degraded) and returns
(Error, e) to the health aggregator. -/
theorem probe_failure_degrades (p : Plugin) (e : Err) :
    (probe (some e) p).state.lastConnErr = some e ∧
    (probe (some e) p).state.connected = false ∧
    (probe (some e) p).status = statuscheck.PluginState.Error ∧
    (probe (some e) p).retErr = some e := by
  simp [probe]

/-- C3: when the config lookup reports not-found with no error, Init marks
the plugin disabled, returns a nil error, creates no client, leaves the
plugin disconnected and registers no health probe. -/
theorem init_missing_config_disables (cfg : Config) (nce : Option Err)
    (scp rp : Bool) (fresh : Nat) :
    (Plugin.Init (envNoConfig cfg nce fresh) (Plugin.initial scp rp)).plugin.Disabled = true ∧
    (Plugin.Init (envNoConfig cfg nce fresh) (Plugin.initial scp rp)).ret = none ∧
    (Plugin.Init (envNoConfig cfg nce fresh) (Plugin.initial scp rp)).plugin.hasClient = false ∧
    (Plugin.Init (envNoConfig cfg nce fresh) (Plugin.initial scp rp)).plugin.Connected = false ∧
    (Plugin.Init (envNoConfig cfg nce fresh) (Plugin.initial scp rp)).probeRegistered = false :=
  ⟨rfl, rfl, rfl, rfl, rfl⟩

/-- C4: when NewClient fails with error e, Init returns e to its caller,
the plugin is not marked connected, no client is held and no health probe
is registered. -/
theorem init_client_failure_fatal (cfg : Config) (e : Err)
    (scp rp : Bool) (fresh : Nat) :
    (Plugin.Init (envClientFails cfg e fresh) (Plugin.initial scp rp)).ret = some e ∧
    (Plugin.Init (envClientFails cfg e fresh) (Plugin.initial scp rp)).plugin.Connected = false ∧
    (Plugin.Init (envClientFails cfg e fresh) (Plugin.initial scp rp)).plugin.hasClient = false ∧
    (Plugin.Init (envClientFails cfg e fresh) (Plugin.initial scp rp)).probeRegistered = false :=
  ⟨rfl, rfl, rfl, rfl⟩

/-- Once fired, the spec-modelled notifier never delivers again. -/
theorem deliveries_after_fired (k : Nat) : deliveries { fired := true } k = 0 := by
  induction k with
  | zero => rfl
  | succ k ih => simp [deliveries, notifyConnAvailable, ih]

/-- Every path through Init leaves the notification channel at the one
allocated on its first line. -/
theorem init_chan_is_fresh (env : InitEnv) (p : Plugin) :
    (Plugin.Init env p).plugin.initNotifChan = some env.freshChan := by
  rcases h : env.getValue.err with _ | e <;>
    rcases hn : env.newClientErr with _ | e2 <;>
    by_cases hf : env.getValue.found <;>
    simp [Plugin.Init, Plugin.getConfig, ConfigToClient, h, hn, hf] <;>
    split <;>
    simp_all

/-- C5: GetInitNotificationChan returns exactly the channel Init created,
on every Init path; and the spec-modelled one-shot notifier delivers
exactly one notification over any positive number of connection-available
events — a single-fire signal, never a repeating stream. -/
theorem init_notification_one_shot (env : InitEnv) (p : Plugin) (k : Nat) :
    (Plugin.Init env p).plugin.GetInitNotificationChan = some env.freshChan ∧
    deliveries { fired := false } (k + 1) = 1 := by
  constructor
  · simpa [Plugin.GetInitNotificationChan] using init_chan_is_fresh env p
  · simp [deliveries, notifyConnAvailable, deliveries_after_fired]

/-- C6: closing the plugin twice returns a nil error both times, and the
second close releases nothing new (no double-free). -/
theorem close_twice_ok (p : Plugin) (cs : ChanState) :
    (p.Close cs).2 = none ∧
    (p.Close (p.Close cs).1).2 = none ∧
    (p.Close (p.Close cs).1).1 = (p.Close cs).1 := by
  rcases h : p.initNotifChan with _ | id
  · simp [Plugin.Close, safeclose.Close, h]
  · by_cases hm : id ∈ cs.closedIds <;> simp [Plugin.Close, safeclose.Close, h, hm]

/-- Every single post-init operation leaves the disabled flag untouched. -/
theorem step_preserves_disabled (p : Plugin) (op : Op) :
    (step p op).disabled = p.disabled := by
  cases op with
  | probeOp readErr =>
    cases readErr with
    | none =>
      simp only [step, probe]
      split
      · split <;> rfl
      · rfl
    | some e => rfl
  | closeOp => rfl
  | doResyncOp => rfl
  | newBrokerOp pfx => rfl
  | newWatcherOp pfx => rfl

/-- C7: the disabled flag is decided once; no sequence of post-init
operations (probes, Close, DoResync, broker or watcher creation) changes
what Disabled() returns. -/
theorem disabled_fixed_after_init (p : Plugin) (ops : List Op) :
    (ops.foldl step p).Disabled = p.Disabled := by
  induction ops generalizing p with
  | nil => rfl
  | cons op ops ih =>
    simp only [List.foldl_cons]
    rw [ih]
    simp [Plugin.Disabled, step_preserves_disabled]

/-- C8: ConfigToClient never errors, and the resulting client address is
the backend default when the configured address is empty and the
configured address otherwise. -/
theorem configToClient_address (cfg : Config) :
    (ConfigToClient cfg).2 = none ∧
    (ConfigToClient cfg).1.Address =
      (if cfg.Address = "" then api.DefaultConfig.Address else cfg.Address) := by
  refine ⟨rfl, ?_⟩
  by_cases h : cfg.Address = "" <;> simp [ConfigToClient, h]

/-- C9: WithTTL is a pure builder: it returns a non-nil option packaging
exactly the given duration. -/
theorem withTTL_packages_duration (d : Int) :
    WithTTL d ≠ none ∧ WithTTL d = some { TTL := d } :=
  ⟨by simp [WithTTL], rfl⟩

/-- C10: DoResync dereferences the Resync dependency unconditionally, so it
panics exactly when the dependency is nil; the probe path instead guards a
nil Resync, performing no resync and only logging a warning. -/
theorem doResync_requires_resync_dep (p : Plugin) (e : Err) :
    (Plugin.DoResync p).panicked = !p.resyncPresent ∧
    (probe none { p with resyncPresent := false, reconnectResync := true, lastConnErr := some e }).resyncCalls = 0 ∧
    (probe none { p with resyncPresent := false, reconnectResync := true, lastConnErr := some e }).warnedMissingResync = true := by
  refine ⟨?_, ?_, ?_⟩
  · by_cases h : p.resyncPresent <;> simp [Plugin.DoResync, h]
  · simp [probe]
  · simp [probe]

/-- C1 counterexample: at a concrete plugin satisfying all three stated
preconditions (sentinel read succeeds, resync-after-reconnect enabled,
lastConnErr non-nil) but with a nil Resync dependency, the probe invokes
no resync and leaves the stored error in place, so the claim as stated
fails. -/
theorem probe_reconnect_nil_resync_counterexample :
    pNoResyncDep.reconnectResync = true ∧
    pNoResyncDep.lastConnErr ≠ none ∧
    (probe none pNoResyncDep).resyncCalls = 0 ∧
    (probe none pNoResyncDep).state.lastConnErr = some errBoom :=
  ⟨rfl, by simp [pNoResyncDep, pReconnect], rfl, rfl⟩
